import Mathlib

/-!
Verification development for the Oct-Faucet repository.

This file gives a shallow embedding, in Lean 4, of the claim-relevant parts
of the repository:

* `src/src/utils/crypto.ts` — the front-end faucet orchestrator
  (`createTransaction`, `checkRateLimit`, `updateRateLimit`,
  `sendFaucetTransaction`);
* `src/backend/src/utils/blockchain.ts` — the backend transaction builder,
  balance/nonce readers and RPC submit (`createTransaction`,
  `fetchFaucetBalance`, `fetchFaucetNonce`, `sendTransaction`);
* `src/backend/src/services/recaptchaService.ts` — `verifyRecaptcha`;
* `src/backend/src/routes/faucet.ts` — the address validators of
  `POST /claim` and `GET /eligibility/:address`.

Conventions of the embedding:
* JavaScript numbers are modelled as exact rationals (`ℚ`); integer-valued
  quantities (nonces, HTTP status codes) as `ℤ`/`ℕ`.  IEEE-754 rounding is
  outside the model.
* JSON values (as produced by `JSON.parse` and consumed via property access)
  are the inductive type `Json` below.  The extra constructors `Json.nan`
  and `Json.inf` are never produced by the JSON parser; they exist only so
  that the model of `parseFloat` is total.
* Byte strings (keys, signatures) are `List ℕ`; the source's base64/hex
  transport encodings are injective re-encodings and are elided: functions
  take and attach the decoded bytes directly.
* Asynchronous I/O is modelled by passing the outcome of each remote call
  (HTTP response, network failure) as an explicit argument.
-/

/-- The character class of JavaScript whitespace: the set matched by the
regex class backslash-s and stripped by `String.prototype.trim`
(ASCII whitespace, NBSP, BOM, and the Unicode space/line separators). -/
def jsWhitespaceChar (c : Char) : Bool :=
  c = ' ' || c = '\t' || c = '\n' || c = '\x0b' || c = '\x0c' || c = '\r' ||
  c = ' ' || c.toNat = 0x1680 ||
  (0x2000 ≤ c.toNat && c.toNat ≤ 0x200a) ||
  c.toNat = 0x2028 || c.toNat = 0x2029 || c.toNat = 0x202f ||
  c.toNat = 0x205f || c.toNat = 0x3000 || c.toNat = 0xfeff

/-- Drop the longest run of JavaScript whitespace from the front of a
character list. -/
def dropJsWsLeft (l : List Char) : List Char :=
  l.dropWhile jsWhitespaceChar

/-- Model of `String.prototype.trim`: strip JavaScript whitespace from both
ends. -/
def jsTrim (s : String) : String :=
  ⟨((dropJsWsLeft s.toList).reverse.dropWhile jsWhitespaceChar).reverse⟩

/-- ASCII alphanumeric characters, the class `[a-zA-Z0-9]` of the address
regexes in `src/backend/src/routes/faucet.ts`. -/
def asciiAlnum (c : Char) : Bool :=
  ('a' ≤ c && c ≤ 'z') || ('A' ≤ c && c ≤ 'Z') || ('0' ≤ c && c ≤ '9')

/-- Hexadecimal digits, the class `[0-9a-fA-F]` used by the transaction-hash
regex in `sendTransaction`. -/
def hexDigitChar (c : Char) : Bool :=
  ('0' ≤ c && c ≤ '9') || ('a' ≤ c && c ≤ 'f') || ('A' ≤ c && c ≤ 'F')

/-- JavaScript runtime values as far as this repository's code observes them
after `JSON.parse` / axios body parsing.  `nan` and `inf` are produced only
by the `parseFloat` model, never by `jsonParse`. -/
inductive Json where
  | null : Json
  | bool (b : Bool) : Json
  | num (q : ℚ) : Json
  | str (s : String) : Json
  | arr (elems : List Json) : Json
  | obj (fields : List (String × Json)) : Json
  | nan : Json
  | inf (negative : Bool) : Json

/-- Last-wins association lookup: in a JavaScript object literal parsed from
JSON, a duplicated key keeps the last occurrence. -/
def lookupLast (fields : List (String × Json)) (key : String) : Option Json :=
  fields.foldl (fun acc kv => if kv.1 = key then some kv.2 else acc) none

/-- JavaScript truthiness of a runtime value (`null`, `false`, `0`, `NaN` and
the empty string are falsy; objects and arrays are always truthy). -/
def jsTruthy : Json → Bool
  | Json.null => false
  | Json.bool b => b
  | Json.num q => q ≠ 0
  | Json.str s => s ≠ ""
  | Json.arr _ => true
  | Json.obj _ => true
  | Json.nan => false
  | Json.inf _ => true

/-- Model of the JavaScript expression `x || d` for a possibly-absent field
`x` (absent = `undefined`, which is falsy). -/
def jsOrElse (x : Option Json) (d : Json) : Json :=
  match x with
  | some v => if jsTruthy v then v else d
  | none => d

/-- Model of the JavaScript property access `base.key`: reading a property
of `null` throws a `TypeError` (`Except.error`); reading a missing property
of any other value yields `undefined` (`Option.none`). -/
def jsProp (base : Json) (key : String) : Except Unit (Option Json) :=
  match base with
  | Json.null => Except.error ()
  | Json.obj fields => Except.ok (lookupLast fields key)
  | _ => Except.ok none

/-- Model of `typeof v === 'string'` for a possibly-absent value. -/
def jsIsString (x : Option Json) : Bool :=
  match x with
  | some (Json.str _) => true
  | _ => false

/-- Model of `v === 'accepted'` for a possibly-absent value: strict equality against a
string literal holds exactly for that string. -/
def isAcceptedVal (x : Option Json) : Bool :=
  match x with
  | some (Json.str s) => s = "accepted"
  | _ => false

/-- Digits of a decimal numeral, as a natural number; `none` if the list is
empty or contains a non-digit. -/
def decDigitsVal : List Char → Option ℕ
  | [] => none
  | l => l.foldlM (fun acc c =>
      if '0' ≤ c && c ≤ '9' then some (acc * 10 + (c.toNat - '0'.toNat))
      else none) 0

/-- Take the longest leading run of decimal digits. -/
def takeDigits (l : List Char) : List Char × List Char :=
  (l.takeWhile (fun c => '0' ≤ c && c ≤ '9'),
   l.dropWhile (fun c => '0' ≤ c && c ≤ '9'))

/-- Model of JavaScript `parseFloat`: skip leading whitespace, read an
optional sign and the longest prefix shaped like
digits [ '.' digits ] [ ('e'|'E') [sign] digits ], or '.' digits ….
Returns `Json.num` of the exact rational value, `Json.inf` for an
`Infinity` literal, and `Json.nan` when no numeric prefix exists. -/
def jsParseFloat (s : String) : Json :=
  let l := dropJsWsLeft s.toList
  let (neg, l) : Bool × List Char :=
    match l with
    | '-' :: rest => (true, rest)
    | '+' :: rest => (false, rest)
    | _ => (false, l)
  match l with
  | 'I' :: 'n' :: 'f' :: 'i' :: 'n' :: 'i' :: 't' :: 'y' :: _ => Json.inf neg
  | _ =>
    let (intPart, rest1) := takeDigits l
    let (fracPart, rest2) : List Char × List Char :=
      match rest1 with
      | '.' :: r => takeDigits r
      | _ => ([], rest1)
    if intPart.isEmpty && fracPart.isEmpty then Json.nan
    else
      let mantissa : ℕ :=
        (intPart ++ fracPart).foldl (fun acc c => acc * 10 + (c.toNat - '0'.toNat)) 0
      let expo : ℤ :=
        match rest2 with
        | 'e' :: r => jsExpVal r
        | 'E' :: r => jsExpVal r
        | _ => 0
      let base : ℚ := (mantissa : ℚ) / (10 : ℚ) ^ (fracPart.length)
      let value : ℚ := base * (10 : ℚ) ^ (expo : ℤ)
      Json.num (if neg then -value else value)
where
  /-- Exponent suffix of a `parseFloat` numeral; a malformed exponent
  contributes nothing (the regex-like scan stops before it). -/
  jsExpVal (r : List Char) : ℤ :=
    let (eneg, r) : Bool × List Char :=
      match r with
      | '-' :: rr => (true, rr)
      | '+' :: rr => (false, rr)
      | _ => (false, r)
    let (ds, _) := takeDigits r
    if ds.isEmpty then 0
    else
      let n : ℕ := ds.foldl (fun acc c => acc * 10 + (c.toNat - '0'.toNat)) 0
      if eneg then -(n : ℤ) else (n : ℤ)

/-- Try to match the regex `OK` + whitespace-run + 64 hex digits at exactly
this position of the text; on success return the 64-digit capture group. -/
def okHexMatchAt (l : List Char) : Option String :=
  match l with
  | 'O' :: 'K' :: rest =>
    let ws := rest.takeWhile jsWhitespaceChar
    if ws.isEmpty then none
    else
      let after := rest.dropWhile jsWhitespaceChar
      let hex := after.take 64
      if hex.length = 64 && hex.all hexDigitChar then some ⟨hex⟩ else none
  | _ => none

/-- Scan for the leftmost match of the pattern above. -/
def okHexSearch : List Char → Option String
  | [] => none
  | c :: rest =>
    match okHexMatchAt (c :: rest) with
    | some h => some h
    | none => okHexSearch rest

/-- Model of `text.match(` the regex `OK` backslash-s+ 64-hex `)`: the first
capture group of the leftmost match, or `none` when the text has no match. -/
def hashMatch (s : String) : Option String :=
  okHexSearch s.toList

/-- JSON insignificant whitespace (space, tab, line feed, carriage return). -/
def jsonWsChar (c : Char) : Bool :=
  c = ' ' || c = '\t' || c = '\n' || c = '\r'

/-- The opening curly brace character. -/
def lBraceChar : Char := Char.ofNat 0x7b

/-- The closing curly brace character. -/
def rBraceChar : Char := Char.ofNat 0x7d

/-- Value of a hexadecimal digit. -/
def hexVal (c : Char) : ℕ :=
  if '0' ≤ c && c ≤ '9' then c.toNat - '0'.toNat
  else if 'a' ≤ c && c ≤ 'f' then c.toNat - 'a'.toNat + 10
  else if 'A' ≤ c && c ≤ 'F' then c.toNat - 'A'.toNat + 10
  else 0

/-- Two-character JSON string escapes. -/
def jsonEscape : Char → Option Char
  | '"' => some '"'
  | '\\' => some '\\'
  | '/' => some '/'
  | 'b' => some '\x08'
  | 'f' => some '\x0c'
  | 'n' => some '\n'
  | 'r' => some '\r'
  | 't' => some '\t'
  | _ => none

/-- Parse the body of a JSON string literal (the opening quote already
consumed), returning the decoded content and the remainder after the closing
quote.  The fuel of the caller is at least the input length plus one, and one
character is consumed per step, so fuel never runs out on a valid literal. -/
def parseJStringBody : ℕ → List Char → Option (String × List Char)
  | 0, _ => none
  | _ + 1, [] => none
  | fuel + 1, c :: rest =>
    if c = '"' then some ("", rest)
    else if c = '\\' then
      match rest with
      | [] => none
      | e :: rest2 =>
        if e = 'u' then
          match rest2 with
          | h1 :: h2 :: h3 :: h4 :: rest3 =>
            if [h1, h2, h3, h4].all hexDigitChar then
              (parseJStringBody fuel rest3).map (fun p =>
                (String.singleton
                    (Char.ofNat
                      (hexVal h1 * 4096 + hexVal h2 * 256 + hexVal h3 * 16 + hexVal h4))
                  ++ p.1, p.2))
            else none
          | _ => none
        else
          match jsonEscape e with
          | some ec =>
            (parseJStringBody fuel rest2).map (fun p => (String.singleton ec ++ p.1, p.2))
          | none => none
    else if c.toNat < 0x20 then none
    else (parseJStringBody fuel rest).map (fun p => (String.singleton c ++ p.1, p.2))

/-- Parse a JSON number per the strict JSON grammar (`-`? int frac? exp?),
returning its exact rational value and the remainder. -/
def parseJNumber (l : List Char) : Option (Json × List Char) :=
  let (neg, l1) : Bool × List Char :=
    match l with
    | '-' :: rest => (true, rest)
    | _ => (false, l)
  let (intPart, rest1) := takeDigits l1
  if intPart.isEmpty then none
  else if intPart.head? = some '0' && intPart.length > 1 then none
  else
    let (fracPart, rest2, fracOk) : List Char × List Char × Bool :=
      match rest1 with
      | '.' :: r =>
        let (ds, r2) := takeDigits r
        (ds, r2, !ds.isEmpty)
      | _ => ([], rest1, true)
    if !fracOk then none
    else
      let expParse : Option (ℤ × List Char) :=
        match rest2 with
        | 'e' :: r => parseJExp r
        | 'E' :: r => parseJExp r
        | _ => some (0, rest2)
      match expParse with
      | none => none
      | some (expo, rest3) =>
        let mantissa : ℕ :=
          (intPart ++ fracPart).foldl (fun acc c => acc * 10 + (c.toNat - '0'.toNat)) 0
        let base : ℚ := (mantissa : ℚ) / (10 : ℚ) ^ fracPart.length
        let value : ℚ := base * (10 : ℚ) ^ expo
        some (Json.num (if neg then -value else value), rest3)
where
  /-- Exponent part after the `e`/`E` marker; at least one digit required. -/
  parseJExp (r : List Char) : Option (ℤ × List Char) :=
    let (eneg, r1) : Bool × List Char :=
      match r with
      | '-' :: rr => (true, rr)
      | '+' :: rr => (false, rr)
      | _ => (false, r)
    let (ds, r2) := takeDigits r1
    if ds.isEmpty then none
    else
      let n : ℕ := ds.foldl (fun acc c => acc * 10 + (c.toNat - '0'.toNat)) 0
      some (if eneg then -(n : ℤ) else (n : ℤ), r2)

mutual

/-- Parse one JSON value (model of the recursive core of `JSON.parse`).
Fuel decreases on every nested call; `jsonParse` supplies fuel linear in the
input length, which dominates the number of calls because at least one input
character separates any two fuel decrements. -/
def parseJValue : ℕ → List Char → Option (Json × List Char)
  | 0, _ => none
  | fuel + 1, l =>
    match l.dropWhile jsonWsChar with
    | 'n' :: 'u' :: 'l' :: 'l' :: rest => some (Json.null, rest)
    | 't' :: 'r' :: 'u' :: 'e' :: rest => some (Json.bool true, rest)
    | 'f' :: 'a' :: 'l' :: 's' :: 'e' :: rest => some (Json.bool false, rest)
    | '"' :: rest =>
      (parseJStringBody (rest.length + 1) rest).map (fun p => (Json.str p.1, p.2))
    | '[' :: rest =>
      match rest.dropWhile jsonWsChar with
      | ']' :: rest2 => some (Json.arr [], rest2)
      | rest2 => (parseJElems fuel rest2).map (fun p => (Json.arr p.1, p.2))
    | c :: rest =>
      if c = lBraceChar then
        match rest.dropWhile jsonWsChar with
        | c2 :: rest2 =>
          if c2 = rBraceChar then some (Json.obj [], rest2)
          else (parseJMembers fuel (c2 :: rest2)).map (fun p => (Json.obj p.1, p.2))
        | [] => none
      else parseJNumber (c :: rest)
    | [] => none

/-- Parse the comma-separated elements of a non-empty JSON array, up to and
including the closing bracket. -/
def parseJElems : ℕ → List Char → Option (List Json × List Char)
  | 0, _ => none
  | fuel + 1, l =>
    match parseJValue fuel l with
    | none => none
    | some (v, rest) =>
      match rest.dropWhile jsonWsChar with
      | ',' :: rest2 => (parseJElems fuel rest2).map (fun p => (v :: p.1, p.2))
      | ']' :: rest2 => some ([v], rest2)
      | _ => none

/-- Parse the comma-separated members of a non-empty JSON object, up to and
including the closing brace. -/
def parseJMembers : ℕ → List Char → Option (List (String × Json) × List Char)
  | 0, _ => none
  | fuel + 1, l =>
    match l.dropWhile jsonWsChar with
    | '"' :: rest =>
      match parseJStringBody (rest.length + 1) rest with
      | none => none
      | some (key, rest2) =>
        match rest2.dropWhile jsonWsChar with
        | ':' :: rest3 =>
          match parseJValue fuel rest3 with
          | none => none
          | some (v, rest4) =>
            match rest4.dropWhile jsonWsChar with
            | ',' :: rest5 =>
              (parseJMembers fuel rest5).map (fun p => ((key, v) :: p.1, p.2))
            | c :: rest5 =>
              if c = rBraceChar then some ([(key, v)], rest5) else none
            | [] => none
        | _ => none
    | _ => none

end

/-- Model of `JSON.parse`: parse one value, require only whitespace after it;
`none` models a thrown `SyntaxError`. -/
def jsonParse (s : String) : Option Json :=
  match parseJValue (2 * s.length + 8) s.toList with
  | some (v, rest) => if (rest.dropWhile jsonWsChar).isEmpty then some v else none
  | none => none

/-!
Section: Transaction builder/signer

Embedding of `createTransaction` from `src/backend/src/utils/blockchain.ts`
(lines 120-154).  `src/src/utils/crypto.ts` (lines 16-63) contains the same
function line for line (its `JSON.stringify(transaction, null, 0)` produces
the same text as the backend's `JSON.stringify(transaction)`).

The Ed25519 primitive (`nacl.sign.detached` / verification) is an external
library; it enters the embedding as an abstract `SigScheme` whose standard
correctness property is a hypothesis of the theorems that need it.  The
JavaScript float-to-string conversion used when serializing the `timestamp`
field enters as an abstract `renderNum` argument.
-/

/-- An Ed25519-style detached-signature scheme over byte strings:
`derivePub` maps a 32-byte seed to its public key, `sign` takes the message
and the 64-byte secret key (seed concatenated with public key), `verify`
takes message, signature and public key. -/
structure SigScheme where
  derivePub : List ℕ → List ℕ
  sign : String → List ℕ → List ℕ
  verify : String → List ℕ → List ℕ → Bool

/-- The transaction record of both `crypto.ts` and `blockchain.ts`.
`fromAddr` embeds the source field `from` (a Lean keyword).  `signature`
and `public_key` hold decoded bytes; the source stores their base64
encodings, an injective transport re-encoding elided by the model. -/
structure Transaction where
  fromAddr : String
  to_ : String
  amount : String
  nonce : ℤ
  ou : String
  timestamp : ℚ
  signature : Option (List ℕ)
  public_key : Option (List ℕ)

/-- JSON.stringify of one string value: quote and escape. -/
def jsonEscapeChar (c : Char) : String :=
  if c = '"' then "\\\""
  else if c = '\\' then "\\\\"
  else if c = '\x08' then "\\b"
  else if c = '\x0c' then "\\f"
  else if c = '\n' then "\\n"
  else if c = '\r' then "\\r"
  else if c = '\t' then "\\t"
  else if c.toNat < 0x20 then
    "\\u00" ++ String.singleton (Char.ofNat (if c.toNat / 16 < 10 then '0'.toNat + c.toNat / 16 else 'a'.toNat + c.toNat / 16 - 10))
      ++ String.singleton (Char.ofNat (if c.toNat % 16 < 10 then '0'.toNat + c.toNat % 16 else 'a'.toNat + c.toNat % 16 - 10))
  else String.singleton c

/-- JSON.stringify of a string. -/
def jsonQuote (s : String) : String :=
  "\"" ++ String.join (s.toList.map jsonEscapeChar) ++ "\""

/-- The `JSON.stringify` text of the six-field base transaction object, fields in
insertion order `from, to_, amount, nonce, ou, timestamp` — the canonical
message that `createTransaction` signs (`signature` and `public_key` are not
yet present on the object at signing time). -/
def stringifyTxBase (renderNum : ℚ → String) (fromA to_ amount : String)
    (nonce : ℤ) (ou : String) (timestamp : ℚ) : String :=
  "\x7b\"from\":" ++ jsonQuote fromA ++
  ",\"to_\":" ++ jsonQuote to_ ++
  ",\"amount\":" ++ jsonQuote amount ++
  ",\"nonce\":" ++ toString nonce ++
  ",\"ou\":" ++ jsonQuote ou ++
  ",\"timestamp\":" ++ renderNum timestamp ++ "\x7d"

/-- The `MU_FACTOR` constant of both sources. -/
def MU_FACTOR : ℚ := 1000000

/-- Embedding of `createTransaction`.  `privateKey` and `publicKey` are the
decoded 32-byte buffers (the source decodes them from base64/hex);
`timestamp` is the value `Date.now() / 1000 + Math.random() * 0.01` computed
at line 130, passed in explicitly since the model has no clock. -/
def createTransaction (scheme : SigScheme) (renderNum : ℚ → String)
    (senderAddress recipientAddress : String) (amount : ℚ) (nonce : ℤ)
    (privateKey publicKey : List ℕ) (timestamp : ℚ) : Transaction :=
  let amountMu : ℤ := ⌊amount * MU_FACTOR⌋
  let ou : String := if amount < 1000 then "1" else "3"
  let txString :=
    stringifyTxBase renderNum senderAddress recipientAddress (toString amountMu)
      nonce ou timestamp
  let secretKey := privateKey ++ publicKey
  let signature := scheme.sign txString secretKey
  { fromAddr := senderAddress
    to_ := recipientAddress
    amount := toString amountMu
    nonce := nonce
    ou := ou
    timestamp := timestamp
    signature := some signature
    public_key := some publicKey }

/-!
Section: Backend RPC submit and balance/nonce readers (`blockchain.ts`)
-/

/-- Result record of `sendTransaction` / the front-end `sendTransaction`.
`hash` is `Option Json` because `data.tx_hash` is read from parsed JSON
without a type check; the plain-text paths wrap the text as `Json.str`. -/
structure TransactionResult where
  success : Bool
  hash : Option Json
  error : Option String

/-- Outcome of the HTTP exchange underneath the axios POST of
`sendTransaction`: either an HTTP response with its status and body text
arrived, or the exchange failed below the HTTP layer (DNS failure,
connection refused, the 30s timeout), carrying the error message that axios
puts on the thrown error. -/
inductive HttpOutcome where
  | response (status : ℕ) (text : String) : HttpOutcome
  | networkError (message : String) : HttpOutcome

/-- The `error.message` that axios attaches when its default
`validateStatus` (accept exactly the 2xx range) rejects a response. -/
def axiosErrorMessage (status : ℕ) : String :=
  "Request failed with status code " ++ toString status

/-- Embedding of the response handling of `sendTransaction`
(`blockchain.ts` lines 320-356), as a function of the HTTP outcome,
including the axios transport behaviour: `sendTransaction` calls
`axios.post` without overriding `validateStatus`, so a non-2xx response
rejects the promise and the source's catch block returns the axios error
message (`Request failed with status code N`), never seeing the body; a
network-level failure likewise surfaces its `error.message`.  A resolved
response reaches the source's own branches: on status 200 it tries
`JSON.parse`; if the parse succeeds and `data.status === 'accepted'` the
hash is `data.tx_hash`; an exception (parse failure, or the property access
faulting on a body that parses to `null`) enters the inner catch block,
which tries the `OK <64-hex>` regex; anything else falls through to the
raw-body return.  A resolved status other than 200 (a 2xx status other than
200) falls to the final failure return carrying the raw text. -/
def parseSendTxResponse (out : HttpOutcome) : TransactionResult :=
  match out with
  | HttpOutcome.networkError msg =>
    { success := false, hash := none, error := some msg }
  | HttpOutcome.response status text =>
    if 200 ≤ status ∧ status < 300 then
      if status = 200 then
        match jsonParse text with
        | some data =>
          match jsProp data "status" with
          | Except.ok st =>
            if isAcceptedVal st then
              { success := true
                hash := match jsProp data "tx_hash" with
                        | Except.ok v => v
                        | Except.error _ => none
                error := none }
            else { success := true, hash := some (Json.str text), error := none }
          | Except.error _ =>
            match hashMatch text with
            | some h => { success := true, hash := some (Json.str h), error := none }
            | none => { success := true, hash := some (Json.str text), error := none }
        | none =>
          match hashMatch text with
          | some h => { success := true, hash := some (Json.str h), error := none }
          | none => { success := true, hash := some (Json.str text), error := none }
      else { success := false, hash := none, error := some text }
    else { success := false, hash := none, error := some (axiosErrorMessage status) }

/-- The transaction that `sendTransaction` (`blockchain.ts` lines 303-312)
builds and submits, as a function of the nonce returned by
`fetchFaucetNonce`: it calls `createTransaction` with `nonce + 1`. -/
def sendTransactionTx (scheme : SigScheme) (renderNum : ℚ → String)
    (address recipientAddress : String) (amount : ℚ) (fetchedNonce : ℤ)
    (privateKey publicKey : List ℕ) (timestamp : ℚ) : Transaction :=
  createTransaction scheme renderNum address recipientAddress amount
    (fetchedNonce + 1) privateKey publicKey timestamp

/-- Outcome of the axios GET against the address-info endpoint: `ok` carries
the parsed response body (axios parses a JSON body; a non-JSON body stays the
raw string, embedded as `Json.str`); `failure` is any rejected promise
(network error, timeout, non-2xx status). -/
inductive FetchOutcome where
  | ok (data : Json) : FetchOutcome
  | failure : FetchOutcome

/-- Embedding of `fetchFaucetBalance` (`blockchain.ts` lines 242-267) as a
function of the GET outcome.  A rejected request, or the property access
`response.data.balance` faulting (body `null`), lands in the catch block,
which throws `Unable to fetch faucet balance` (`Except.error`).  Otherwise:
a string balance goes through `parseFloat`, anything else through
`balance || 0`. -/
def fetchFaucetBalance (out : FetchOutcome) : Except String Json :=
  match out with
  | FetchOutcome.failure => Except.error "Unable to fetch faucet balance"
  | FetchOutcome.ok data =>
    match jsProp data "balance" with
    | Except.error _ => Except.error "Unable to fetch faucet balance"
    | Except.ok bal =>
      match bal with
      | some (Json.str s) => Except.ok (jsParseFloat s)
      | _ => Except.ok (jsOrElse bal (Json.num 0))

/-- Embedding of `fetchFaucetNonce` (`blockchain.ts` lines 269-291):
`response.data.nonce || 0`, with the same catch-block conversion to the
thrown `Unable to fetch faucet nonce` error. -/
def fetchFaucetNonce (out : FetchOutcome) : Except String Json :=
  match out with
  | FetchOutcome.failure => Except.error "Unable to fetch faucet nonce"
  | FetchOutcome.ok data =>
    match jsProp data "nonce" with
    | Except.error _ => Except.error "Unable to fetch faucet nonce"
    | Except.ok nonce => Except.ok (jsOrElse nonce (Json.num 0))

/-!
Section: Front-end claim orchestrator (`src/src/utils/crypto.ts`)
-/

/-- The `oneHour` constant of `checkRateLimit`, in milliseconds. -/
def oneHourMs : ℚ := 60 * 60 * 1000

/-- The `oneDay` constant of `checkRateLimit`, in milliseconds. -/
def oneDayMs : ℚ := 24 * 60 * 60 * 1000

/-- The mutable `rateLimitStore`: two maps from keys to the `Date.now()`
timestamp of the last recorded claim, embedded as association lists with
JavaScript `Map` get/set semantics. -/
structure RateLimitStore where
  addresses : List (String × ℚ)
  ips : List (String × ℚ)

/-- Model of `Map.prototype.set`: replace the value under an existing key, append a
new key otherwise. -/
def mapSet (l : List (String × ℚ)) (k : String) (v : ℚ) : List (String × ℚ) :=
  match l with
  | [] => [(k, v)]
  | (k', v') :: rest => if k' = k then (k, v) :: rest else (k', v') :: mapSet rest k v

/-- Result record of `checkRateLimit`.  `timeUntilNext` is in hours (the
source divides the millisecond remainder by `60 * 60 * 1000`). -/
structure RateLimitCheck where
  canClaim : Bool
  timeUntilNext : Option ℚ
  reason : Option String
deriving DecidableEq

/-- The IP half of `checkRateLimit` (lines 106-116): guarded by the
truthiness of `ip` (absent or empty string skips the check) and, within, by
the truthiness of the stored timestamp (`lastIpClaim && …`). -/
def checkIpRateLimit (store : RateLimitStore) (now : ℚ) (ip : Option String) :
    RateLimitCheck :=
  match ip with
  | some i =>
    if i = "" then { canClaim := true, timeUntilNext := none, reason := none }
    else
      match store.ips.lookup i with
      | some lastIpClaim =>
        if lastIpClaim ≠ 0 ∧ now - lastIpClaim < oneHourMs then
          { canClaim := false
            timeUntilNext := some ((oneHourMs - (now - lastIpClaim)) / (60 * 60 * 1000))
            reason := some "IP rate limit: 1 claim per hour" }
        else { canClaim := true, timeUntilNext := none, reason := none }
      | none => { canClaim := true, timeUntilNext := none, reason := none }
  | none => { canClaim := true, timeUntilNext := none, reason := none }

/-- Embedding of `checkRateLimit` (`crypto.ts` lines 89-119).  `now` is the
`Date.now()` value.  The guard `lastAddressClaim && (now - lastAddressClaim) <
oneDay` tests JavaScript truthiness of the stored number, so a stored
timestamp `0` behaves like an absent record. -/
def checkRateLimit (store : RateLimitStore) (now : ℚ) (address : String)
    (ip : Option String) : RateLimitCheck :=
  match store.addresses.lookup address with
  | some lastAddressClaim =>
    if lastAddressClaim ≠ 0 ∧ now - lastAddressClaim < oneDayMs then
      { canClaim := false
        timeUntilNext := some ((oneDayMs - (now - lastAddressClaim)) / (60 * 60 * 1000))
        reason := some "Address rate limit: 1 claim per 24 hours" }
    else checkIpRateLimit store now ip
  | none => checkIpRateLimit store now ip

/-- Embedding of `updateRateLimit` (`crypto.ts` lines 121-127): write `now`
under the address key, and under the IP key when `ip` is truthy. -/
def updateRateLimit (store : RateLimitStore) (now : ℚ) (address : String)
    (ip : Option String) : RateLimitStore :=
  { addresses := mapSet store.addresses address now
    ips :=
      match ip with
      | some i => if i = "" then store.ips else mapSet store.ips i now
      | none => store.ips }

/-- Front-end `verifyRecaptcha` (`crypto.ts` lines 129-138): the demo stub
only checks that the token is non-empty. -/
def verifyRecaptchaDemo (token : String) : Bool :=
  token.length > 0

/-- The `FaucetResult` record of `crypto.ts`. -/
structure FaucetResult where
  success : Bool
  txHash : Option Json
  error : Option String

/-- JavaScript `x || d` on an optional string (`result.error ||
'Transaction failed'`): the default replaces both an absent and an empty
string. -/
def jsOrString (x : Option String) (d : String) : String :=
  match x with
  | some s => if s = "" then d else s
  | none => d

/-- Embedding of `sendFaucetTransaction` (`crypto.ts` lines 190-253) as a
function of the store state, the current time and the outcome
`submitResult` of the `sendTransaction` RPC call.  The nonce fetch and the
`createTransaction` call of lines 217-227 (which build the submitted
transaction, see `sendTransactionTx`) only influence `submitResult` and are
absorbed into it.  Returns the `FaucetResult` together with the store as
left after the call (the source mutates `rateLimitStore` in place). -/
def sendFaucetTransaction (recipientAddress recaptchaToken : String)
    (store : RateLimitStore) (now : ℚ) (submitResult : TransactionResult) :
    FaucetResult × RateLimitStore :=
  if ¬ verifyRecaptchaDemo recaptchaToken then
    ({ success := false, txHash := none, error := some "reCAPTCHA verification failed" },
      store)
  else
    let userIp := "demo-ip"
    let rateLimitCheck := checkRateLimit store now recipientAddress (some userIp)
    if ¬ rateLimitCheck.canClaim then
      ({ success := false, txHash := none, error := rateLimitCheck.reason }, store)
    else if submitResult.success then
      ({ success := true, txHash := submitResult.hash, error := none },
        updateRateLimit store now recipientAddress (some userIp))
    else
      ({ success := false, txHash := none,
         error := some (jsOrString submitResult.error "Transaction failed") },
        store)

/-!
Section: Backend CAPTCHA verifier (`src/backend/src/services/recaptchaService.ts`)
-/

/-- Outcome of the axios POST to the verification endpoint: a response whose
body has the given `success` flag, or a rejected promise (timeout, network
error, non-2xx status). -/
inductive RecaptchaNet where
  | response (success : Bool) : RecaptchaNet
  | failure : RecaptchaNet

/-- Embedding of `verifyRecaptcha` (`recaptchaService.ts` lines 13-94) as a
function of the configured secret (`none` = environment variable unset), the
token and the network outcome.  Returns the boolean result together with a
flag recording whether the outbound verification request was issued.  All
failure paths — missing secret (`!RECAPTCHA_SECRET_KEY` also catches the
empty string), whitespace-only secret, empty or whitespace-only token
(`!token || token.trim() === ''`), a non-success verifier response, and the
catch block around the axios call — return `false`; the function is total,
so nothing escapes its boundary. -/
def verifyRecaptcha (secretKey : Option String) (token : String)
    (net : RecaptchaNet) : Bool × Bool :=
  match secretKey with
  | none => (false, false)
  | some sk =>
    if sk = "" then (false, false)
    else if jsTrim sk = "" then (false, false)
    else if token = "" ∨ jsTrim token = "" then (false, false)
    else
      match net with
      | RecaptchaNet.response true => (true, true)
      | RecaptchaNet.response false => (false, true)
      | RecaptchaNet.failure => (false, true)

/-!
Section: Route validators (`src/backend/src/routes/faucet.ts`)
-/

/-- The address regex `oct` followed by one or more `[a-zA-Z0-9]`, anchored
at both ends, shared by both endpoints. -/
def octAddressPattern (s : String) : Bool :=
  match s.toList with
  | 'o' :: 'c' :: 't' :: rest => !rest.isEmpty && rest.all asciiAlnum
  | _ => false

/-- The `POST /claim` validation chain for `body('address')` (lines 34-39):
trim, then `isLength` with min 10 and max 100, then the pattern match — all
applied to the trimmed value. -/
def validateClaimAddress (s : String) : Bool :=
  let t := jsTrim s
  decide (10 ≤ t.length) && decide (t.length ≤ 100) && octAddressPattern t

/-- The `GET /eligibility/:address` check (line 61): only
`address.match(pattern)`, no trim and no length bound; the request proceeds
to `checkEligibility` exactly when the pattern matches. -/
def validateEligibilityAddress (s : String) : Bool :=
  octAddressPattern s

/-!
Section: Specification-side definitions

`submitParseSpec` restates the submit-response parse in the priority-list
form of the specification (with the corrected guard for the regex stage);
it is compared with the source-derived `parseSendTxResponse` by theorem.
-/

/-- The attempt of the 200-branch to read `status` from the parsed body:
fails when the body is not JSON, or when the parsed body is `null` so that
the property access faults. -/
def readStatusField (text : String) : Except Unit (Option Json) :=
  match jsonParse text with
  | none => Except.error ()
  | some d => jsProp d "status"

/-- The `tx_hash` field of the parsed body, when the body is a JSON object
carrying one. -/
def txHashField (text : String) : Option Json :=
  match jsonParse text with
  | some d =>
    match jsProp d "tx_hash" with
    | Except.ok v => v
    | Except.error _ => none
  | none => none

/-- The submit-response parse as a priority-ordered strategy: on an HTTP
200 response, a JSON body whose `status` is `accepted` yields its
`tx_hash`; the `OK <64-hex>` regex stage applies only when reading `status`
from the body faults (unparseable body, or a body parsing to `null`);
everything else returns the raw body as the hash.  A 2xx status other than
200 is a failure carrying the raw body; a non-2xx status or a network
failure never reaches the body handling: it is a failure carrying the axios
error message. -/
def submitParseSpec (out : HttpOutcome) : TransactionResult :=
  match out with
  | HttpOutcome.networkError msg =>
    { success := false, hash := none, error := some msg }
  | HttpOutcome.response status text =>
    if status = 200 then
      match readStatusField text with
      | Except.ok st =>
        if isAcceptedVal st then { success := true, hash := txHashField text, error := none }
        else { success := true, hash := some (Json.str text), error := none }
      | Except.error _ =>
        match hashMatch text with
        | some h => { success := true, hash := some (Json.str h), error := none }
        | none => { success := true, hash := some (Json.str text), error := none }
    else if 200 ≤ status ∧ status < 300 then
      { success := false, hash := none, error := some text }
    else
      { success := false, hash := none, error := some (axiosErrorMessage status) }

/-- A 64-hex-digit sample transaction hash. -/
def hex64Sample : String :=
  "0123456789abcdef0123456789abcdef0123456789abcdef0123456789abcdef"

/-- An HTTP-200 response body that parses as JSON, does not have
`status: "accepted"`, and contains an `OK <64-hex>` substring: it separates
the claimed parse priority from the implemented one. -/
def submitPriorityCexBody : String :=
  "\x7b\"status\":\"rejected\",\"detail\":\"OK " ++ hex64Sample ++ "\"\x7d"

/-- A concrete signature scheme satisfying the round-trip correctness
property assumed of Ed25519, used to instantiate the signature theorem:
signing yields the message's code points and verification recomputes them. -/
def demoScheme : SigScheme :=
  { derivePub := fun seed => seed
    sign := fun msg _ => msg.toList.map Char.toNat
    verify := fun msg sig _ => sig == msg.toList.map Char.toNat }

/-- A concrete stand-in for the JavaScript number-to-string conversion. -/
def demoRender (q : ℚ) : String := toString q

/-!
Section: Theorems
-/

theorem mapSet_lookup_self (l : List (String × ℚ)) (k : String) (v : ℚ) :
    (mapSet l k v).lookup k = some v := by
  induction l with
  | nil => simp [mapSet, List.lookup]
  | cons hd tl ih =>
    obtain ⟨a, b⟩ := hd
    by_cases h : a = k
    · simp [mapSet, h, List.lookup]
    · have hba : (k == a) = false := by simp [Ne.symm h]
      simp only [mapSet, h, if_false]
      simp [List.lookup, hba, ih]

/-- C3: for every claim that reaches the submission step, the transaction
submitted to the RPC carries a nonce equal to the value returned by the
nonce fetch plus one (`sendTransaction` passes `nonce + 1` to
`createTransaction`, which stores its nonce argument unchanged). -/
theorem sendTransactionTx_nonce (scheme : SigScheme) (renderNum : ℚ → String)
    (address recipientAddress : String) (amount : ℚ) (fetchedNonce : ℤ)
    (privateKey publicKey : List ℕ) (timestamp : ℚ) :
    (sendTransactionTx scheme renderNum address recipientAddress amount
      fetchedNonce privateKey publicKey timestamp).nonce = fetchedNonce + 1 :=
  rfl

/-- C6: `createTransaction` sets `ou` to `"1"` exactly when the amount is
below 1000 and to `"3"` otherwise; in particular amount 500 gives `"1"`,
and amounts 1000 and 1500 give `"3"`. -/
theorem createTransaction_ou (scheme : SigScheme) (renderNum : ℚ → String)
    (s r : String) (amount : ℚ) (n : ℤ) (priv pub : List ℕ) (ts : ℚ) :
    (createTransaction scheme renderNum s r amount n priv pub ts).ou
        = (if amount < 1000 then "1" else "3")
    ∧ (createTransaction scheme renderNum s r 500 n priv pub ts).ou = "1"
    ∧ (createTransaction scheme renderNum s r 1000 n priv pub ts).ou = "3"
    ∧ (createTransaction scheme renderNum s r 1500 n priv pub ts).ou = "3" := by
  refine ⟨rfl, ?_, ?_, ?_⟩ <;> simp only [createTransaction] <;> norm_num

/-- C7: `createTransaction` sets the `amount` field to the decimal string of
the floor of the requested amount times one million; concretely, amounts
10, 5/2 and 1/3 give `"10000000"`, `"2500000"` and `"333333"`. -/
theorem createTransaction_amount_minor (scheme : SigScheme)
    (renderNum : ℚ → String) (s r : String) (amount : ℚ) (n : ℤ)
    (priv pub : List ℕ) (ts : ℚ) :
    (createTransaction scheme renderNum s r amount n priv pub ts).amount
        = toString (⌊amount * 1000000⌋ : ℤ)
    ∧ (createTransaction scheme renderNum s r 10 n priv pub ts).amount = "10000000"
    ∧ (createTransaction scheme renderNum s r (5 / 2) n priv pub ts).amount = "2500000"
    ∧ (createTransaction scheme renderNum s r (1 / 3) n priv pub ts).amount = "333333" := by
  refine ⟨rfl, ?_, ?_, ?_⟩
  · show toString (⌊(10 : ℚ) * MU_FACTOR⌋ : ℤ) = "10000000"
    have h : (⌊(10 : ℚ) * MU_FACTOR⌋ : ℤ) = 10000000 := by norm_num [MU_FACTOR]
    rw [h]; rfl
  · show toString (⌊(5 / 2 : ℚ) * MU_FACTOR⌋ : ℤ) = "2500000"
    have h : (⌊(5 / 2 : ℚ) * MU_FACTOR⌋ : ℤ) = 2500000 := by norm_num [MU_FACTOR]
    rw [h]; rfl
  · show toString (⌊(1 / 3 : ℚ) * MU_FACTOR⌋ : ℤ) = "333333"
    have h : (⌊(1 / 3 : ℚ) * MU_FACTOR⌋ : ℤ) = 333333 := by norm_num [MU_FACTOR]
    rw [h]; rfl

/-- C8: for fixed sender, recipient, amount, nonce and keypair, the
signature attached by `createTransaction` verifies — under any signature
scheme with the Ed25519 round-trip property, using the 64-byte signing key
`seed ++ publicKey` — with the attached public key against the JSON
serialization of the six base fields as they were at signing time
(`signature` and `public_key` are not part of the signed message, which
`stringifyTxBase` builds from the six base fields only); and two calls at
wall-clock instants `t1`, `t2` agree on every field except `timestamp` and
`signature`, each verifying against its own canonical message. -/
theorem createTransaction_signature_verifies
    (scheme : SigScheme) (renderNum : ℚ → String) (sender recipient : String)
    (amount : ℚ) (nonce : ℤ) (priv : List ℕ) (t1 t2 : ℚ)
    (hscheme : ∀ msg seed, scheme.verify msg
        (scheme.sign msg (seed ++ scheme.derivePub seed)) (scheme.derivePub seed) = true) :
    let tx1 := createTransaction scheme renderNum sender recipient amount nonce
        priv (scheme.derivePub priv) t1
    let tx2 := createTransaction scheme renderNum sender recipient amount nonce
        priv (scheme.derivePub priv) t2
    (∀ sig pk, tx1.signature = some sig → tx1.public_key = some pk →
        scheme.verify (stringifyTxBase renderNum tx1.fromAddr tx1.to_ tx1.amount
          tx1.nonce tx1.ou tx1.timestamp) sig pk = true)
    ∧ (∀ sig pk, tx2.signature = some sig → tx2.public_key = some pk →
        scheme.verify (stringifyTxBase renderNum tx2.fromAddr tx2.to_ tx2.amount
          tx2.nonce tx2.ou tx2.timestamp) sig pk = true)
    ∧ tx1.fromAddr = tx2.fromAddr ∧ tx1.to_ = tx2.to_ ∧ tx1.amount = tx2.amount
    ∧ tx1.nonce = tx2.nonce ∧ tx1.ou = tx2.ou ∧ tx1.public_key = tx2.public_key
    ∧ tx1.timestamp = t1 ∧ tx2.timestamp = t2 := by
  refine ⟨?_, ?_, rfl, rfl, rfl, rfl, rfl, rfl, rfl, rfl⟩
  · intro sig pk hsig hpk
    simp only [createTransaction, Option.some.injEq] at hsig hpk
    subst hsig; subst hpk
    exact hscheme _ priv
  · intro sig pk hsig hpk
    simp only [createTransaction, Option.some.injEq] at hsig hpk
    subst hsig; subst hpk
    exact hscheme _ priv

/-- Closed instantiation of `createTransaction_signature_verifies` at the
concrete `demoScheme`/`demoRender` and concrete transaction inputs. -/
theorem createTransaction_signature_verifies_witness :
    demoScheme.verify
      (stringifyTxBase demoRender
        (createTransaction demoScheme demoRender "octS" "octR" 10 4 [1, 2, 3]
          (demoScheme.derivePub [1, 2, 3]) 0).fromAddr
        (createTransaction demoScheme demoRender "octS" "octR" 10 4 [1, 2, 3]
          (demoScheme.derivePub [1, 2, 3]) 0).to_
        (createTransaction demoScheme demoRender "octS" "octR" 10 4 [1, 2, 3]
          (demoScheme.derivePub [1, 2, 3]) 0).amount
        (createTransaction demoScheme demoRender "octS" "octR" 10 4 [1, 2, 3]
          (demoScheme.derivePub [1, 2, 3]) 0).nonce
        (createTransaction demoScheme demoRender "octS" "octR" 10 4 [1, 2, 3]
          (demoScheme.derivePub [1, 2, 3]) 0).ou
        (createTransaction demoScheme demoRender "octS" "octR" 10 4 [1, 2, 3]
          (demoScheme.derivePub [1, 2, 3]) 0).timestamp)
      ((createTransaction demoScheme demoRender "octS" "octR" 10 4 [1, 2, 3]
          (demoScheme.derivePub [1, 2, 3]) 0).signature.getD [])
      ((createTransaction demoScheme demoRender "octS" "octR" 10 4 [1, 2, 3]
          (demoScheme.derivePub [1, 2, 3]) 0).public_key.getD [])
      = true :=
  (createTransaction_signature_verifies demoScheme demoRender "octS" "octR" 10 4
    [1, 2, 3] 0 1 (by intro msg seed; simp [demoScheme])).1 _ _ rfl rfl

/-- C5: `verifyRecaptcha` never throws past its boundary (its embedding is a
total function of the configuration, the token and the network outcome) and
returns `false` when the server-side secret is missing or empty, when the
token is empty, when the verifier responds non-success, and on timeout or
network error; for an empty token the outbound call flag is `false` as well
(no network request is made). -/
theorem verifyRecaptcha_fail_closed (secretKey : Option String) (token : String)
    (net : RecaptchaNet) :
    (secretKey = none → verifyRecaptcha secretKey token net = (false, false))
    ∧ (∀ sk, secretKey = some sk → jsTrim sk = "" →
        (verifyRecaptcha secretKey token net).1 = false)
    ∧ (jsTrim token = "" → (verifyRecaptcha secretKey token net).1 = false
        ∧ (verifyRecaptcha secretKey token net).2 = false)
    ∧ (net = RecaptchaNet.response false → (verifyRecaptcha secretKey token net).1 = false)
    ∧ (net = RecaptchaNet.failure → (verifyRecaptcha secretKey token net).1 = false) := by
  refine ⟨?_, ?_, ?_, ?_, ?_⟩
  · rintro rfl; rfl
  · rintro sk rfl htrim
    simp only [verifyRecaptcha]
    split_ifs <;> simp_all
  · intro htok
    cases secretKey with
    | none => exact ⟨rfl, rfl⟩
    | some sk =>
      simp only [verifyRecaptcha]
      split_ifs <;> simp_all
  · rintro rfl
    cases secretKey with
    | none => rfl
    | some sk =>
      simp only [verifyRecaptcha]
      split_ifs <;> rfl
  · rintro rfl
    cases secretKey with
    | none => rfl
    | some sk =>
      simp only [verifyRecaptcha]
      split_ifs <;> rfl

/-- Closed instantiation of `verifyRecaptcha_fail_closed`: with a configured
secret and a successful verifier, an empty token still yields `false`, and
no outbound call is made. -/
theorem verifyRecaptcha_fail_closed_witness :
    (verifyRecaptcha (some "secret-key") "" (RecaptchaNet.response true)).1 = false
    ∧ (verifyRecaptcha (some "secret-key") "" (RecaptchaNet.response true)).2 = false :=
  (verifyRecaptcha_fail_closed (some "secret-key") "" (RecaptchaNet.response true)).2.2.1
    (by decide)

/-- C10: the `POST /claim` validator accepts an address only if, after
trimming, it matches the `oct[a-zA-Z0-9]+` pattern with length between 10
and 100, whereas `GET /eligibility/:address` applies only the pattern check;
hence the 4-character `"oct1"` passes the eligibility check but fails claim
validation, and every claim-valid address is eligibility-valid. -/
theorem claim_validation_stricter_than_eligibility :
    validateEligibilityAddress "oct1" = true
    ∧ validateClaimAddress "oct1" = false
    ∧ (∀ s, validateClaimAddress s = true →
        validateEligibilityAddress (jsTrim s) = true)
    ∧ (∀ s, validateClaimAddress s = true →
        10 ≤ (jsTrim s).length ∧ (jsTrim s).length ≤ 100) := by
  refine ⟨by decide, by decide, ?_, ?_⟩
  · intro s h
    simp only [validateClaimAddress, Bool.and_eq_true] at h
    exact h.2
  · intro s h
    simp only [validateClaimAddress, Bool.and_eq_true, decide_eq_true_eq] at h
    exact ⟨h.1.1, h.1.2⟩

/-- Closed instantiation of `claim_validation_stricter_than_eligibility`:
an address accepted by the claim validator is accepted by the eligibility
check. -/
theorem claim_validation_stricter_witness :
    validateEligibilityAddress (jsTrim "octabcdefg") = true :=
  claim_validation_stricter_than_eligibility.2.2.1 "octabcdefg" (by decide)

/-- When every address record is either absent, zero, or older than 24h, the
gate falls through to the IP half. -/
theorem checkRateLimit_addr_pass (store : RateLimitStore) (now : ℚ)
    (address : String) (ip : Option String)
    (haddr : ∀ last, store.addresses.lookup address = some last →
      last = 0 ∨ oneDayMs ≤ now - last) :
    checkRateLimit store now address ip = checkIpRateLimit store now ip := by
  cases hA : store.addresses.lookup address with
  | none => simp [checkRateLimit, hA]
  | some last =>
    have hneg : ¬(last ≠ 0 ∧ now - last < oneDayMs) := by
      rcases haddr last hA with h | h
      · simp [h]
      · intro hc; linarith [hc.2]
    simp only [checkRateLimit, hA]
    rw [if_neg hneg]

/-- C1 (amended): the rate-limit gate of `checkRateLimit`: an address record
present with a nonzero timestamp and `now - lastClaim < 24h` rejects with
the address-cooldown reason and a next-eligible time of `lastClaim + 24h`
(encoded as `timeUntilNext` hours), regardless of the IP state — the address
check runs first; otherwise a nonzero IP record with `now - lastClaim < 1h`
rejects with the IP-cooldown reason and next-eligible time `lastClaim + 1h`;
when neither record is within its window (absent, zero, or older) the gate
passes.  The nonzero-timestamp provisos are the amendment: the source tests
JavaScript truthiness of the stored number, so a stored `0` acts as absent
(see `checkRateLimit_zero_timestamp_cex`). -/
theorem checkRateLimit_gate (store : RateLimitStore) (now : ℚ)
    (address : String) (ip : Option String) :
    (∀ last, store.addresses.lookup address = some last → last ≠ 0 →
      now - last < oneDayMs →
      (checkRateLimit store now address ip).canClaim = false
      ∧ (checkRateLimit store now address ip).reason
          = some "Address rate limit: 1 claim per 24 hours"
      ∧ ∃ t, (checkRateLimit store now address ip).timeUntilNext = some t
          ∧ now + t * (60 * 60 * 1000) = last + oneDayMs)
    ∧ ((∀ last, store.addresses.lookup address = some last →
          last = 0 ∨ oneDayMs ≤ now - last) →
       ∀ i lastIp, ip = some i → i ≠ "" → store.ips.lookup i = some lastIp →
         lastIp ≠ 0 → now - lastIp < oneHourMs →
      (checkRateLimit store now address ip).canClaim = false
      ∧ (checkRateLimit store now address ip).reason
          = some "IP rate limit: 1 claim per hour"
      ∧ ∃ t, (checkRateLimit store now address ip).timeUntilNext = some t
          ∧ now + t * (60 * 60 * 1000) = lastIp + oneHourMs)
    ∧ ((∀ last, store.addresses.lookup address = some last →
          last = 0 ∨ oneDayMs ≤ now - last) →
       (∀ i lastIp, ip = some i → store.ips.lookup i = some lastIp →
          lastIp = 0 ∨ oneHourMs ≤ now - lastIp) →
      checkRateLimit store now address ip
        = { canClaim := true, timeUntilNext := none, reason := none }) := by
  refine ⟨?_, ?_, ?_⟩
  · intro last hl h0 hlt
    simp only [checkRateLimit, hl]
    rw [if_pos ⟨h0, hlt⟩]
    refine ⟨rfl, rfl, (oneDayMs - (now - last)) / (60 * 60 * 1000), rfl, ?_⟩
    have hc : (60 * 60 * 1000 : ℚ) ≠ 0 := by norm_num
    field_simp
    ring
  · intro haddr i lastIp hip hine hlookup h0 hlt
    rw [checkRateLimit_addr_pass store now address ip haddr]
    subst hip
    simp only [checkIpRateLimit, hlookup]
    rw [if_neg hine, if_pos ⟨h0, hlt⟩]
    refine ⟨rfl, rfl, (oneHourMs - (now - lastIp)) / (60 * 60 * 1000), rfl, ?_⟩
    have hc : (60 * 60 * 1000 : ℚ) ≠ 0 := by norm_num
    field_simp
    ring
  · intro haddr hips
    rw [checkRateLimit_addr_pass store now address ip haddr]
    cases ip with
    | none => rfl
    | some i =>
      by_cases hie : i = ""
      · simp [checkIpRateLimit, hie]
      · cases hI : store.ips.lookup i with
        | none => simp [checkIpRateLimit, hie, hI]
        | some lastIp =>
          have hneg : ¬(lastIp ≠ 0 ∧ now - lastIp < oneHourMs) := by
            rcases hips i lastIp rfl hI with h | h
            · simp [h]
            · intro hc; linarith [hc.2]
          simp only [checkIpRateLimit, hI]
          rw [if_neg hie, if_neg hneg]

/-- Closed instantiation of `checkRateLimit_gate`: an address that claimed
at time 100 is rejected at time 200 with the address-cooldown reason and a
next-eligible instant of `100 + 24h`. -/
theorem checkRateLimit_gate_witness :
    (checkRateLimit ⟨[("octW", 100)], []⟩ 200 "octW" (some "demo-ip")).canClaim = false
    ∧ (checkRateLimit ⟨[("octW", 100)], []⟩ 200 "octW" (some "demo-ip")).reason
        = some "Address rate limit: 1 claim per 24 hours"
    ∧ ∃ t, (checkRateLimit ⟨[("octW", 100)], []⟩ 200 "octW" (some "demo-ip")).timeUntilNext
          = some t
        ∧ (200 : ℚ) + t * (60 * 60 * 1000) = 100 + oneDayMs :=
  (checkRateLimit_gate ⟨[("octW", 100)], []⟩ 200 "octW" (some "demo-ip")).1 100 rfl
    (by norm_num) (by norm_num [oneDayMs])

/-- C1 (counterexample to the claim as stated): a store whose address and IP
records are both present with timestamp 0 and `now = 5` is inside both
cooldown windows, yet the gate passes, because the source's truthiness guard
`lastAddressClaim && …` treats the stored 0 as absent. -/
theorem checkRateLimit_zero_timestamp_cex :
    (RateLimitStore.mk [("octZeroTs", 0)] [("203.0.113.9", 0)]).addresses.lookup "octZeroTs"
        = some 0
    ∧ ((5 : ℚ) - 0 < oneDayMs)
    ∧ (RateLimitStore.mk [("octZeroTs", 0)] [("203.0.113.9", 0)]).ips.lookup "203.0.113.9"
        = some 0
    ∧ ((5 : ℚ) - 0 < oneHourMs)
    ∧ checkRateLimit (RateLimitStore.mk [("octZeroTs", 0)] [("203.0.113.9", 0)]) 5
        "octZeroTs" (some "203.0.113.9")
        = { canClaim := true, timeUntilNext := none, reason := none } := by
  refine ⟨rfl, by norm_num [oneDayMs], rfl, by norm_num [oneHourMs], ?_⟩
  rfl

/-- C2 (amended): for a claim that reaches the submission step (valid
captcha token, rate-limit gate passed), `sendFaucetTransaction` updates the
rate-limit store only on submission success.  On submit failure it returns
`success = false` and leaves the store unchanged, carrying the RPC error
when that error is present and nonempty and the fallback message
`Transaction failed` when it is absent or empty (the amendment: the source
computes `result.error || 'Transaction failed'`).  On submit success both
the address record and the `demo-ip` record are written with the current
time. -/
theorem sendFaucetTransaction_submit_outcome (recip token : String)
    (store : RateLimitStore) (now : ℚ) (submitResult : TransactionResult)
    (hcaptcha : verifyRecaptchaDemo token = true)
    (hrl : (checkRateLimit store now recip (some "demo-ip")).canClaim = true) :
    (submitResult.success = false →
      (sendFaucetTransaction recip token store now submitResult).1.success = false
      ∧ (sendFaucetTransaction recip token store now submitResult).2 = store
      ∧ (∀ e, submitResult.error = some e → e ≠ "" →
          (sendFaucetTransaction recip token store now submitResult).1.error = some e)
      ∧ ((submitResult.error = none ∨ submitResult.error = some "") →
          (sendFaucetTransaction recip token store now submitResult).1.error
            = some "Transaction failed"))
    ∧ (submitResult.success = true →
      (sendFaucetTransaction recip token store now submitResult).1.success = true
      ∧ (sendFaucetTransaction recip token store now submitResult).1.txHash
          = submitResult.hash
      ∧ (sendFaucetTransaction recip token store now submitResult).2
          = updateRateLimit store now recip (some "demo-ip")
      ∧ (sendFaucetTransaction recip token store now submitResult).2.addresses.lookup recip
          = some now
      ∧ (sendFaucetTransaction recip token store now submitResult).2.ips.lookup "demo-ip"
          = some now) := by
  rcases submitResult with ⟨succ, hash, err⟩
  cases succ
  · have hred : sendFaucetTransaction recip token store now ⟨false, hash, err⟩
        = ({ success := false, txHash := none,
             error := some (jsOrString err "Transaction failed") }, store) := by
      simp [sendFaucetTransaction, hcaptcha, hrl]
    refine ⟨fun _ => ⟨by rw [hred], by rw [hred], ?_, ?_⟩, fun h => by simp at h⟩
    · intro e he hne
      have he' : err = some e := he
      subst he'
      rw [hred]
      simp [jsOrString, hne]
    · intro h
      rw [hred]
      rcases h with h | h
      · have h' : err = none := h
        subst h'
        simp [jsOrString]
      · have h' : err = some "" := h
        subst h'
        simp [jsOrString]
  · have hred : sendFaucetTransaction recip token store now ⟨true, hash, err⟩
        = ({ success := true, txHash := hash, error := none },
           updateRateLimit store now recip (some "demo-ip")) := by
      simp [sendFaucetTransaction, hcaptcha, hrl]
    refine ⟨fun h => by simp at h, fun _ => ⟨by rw [hred], by rw [hred], by rw [hred], ?_, ?_⟩⟩
    · rw [hred]
      simp [updateRateLimit, mapSet_lookup_self]
    · rw [hred]
      simp [updateRateLimit, mapSet_lookup_self]

/-- Closed instantiation of `sendFaucetTransaction_submit_outcome`: a failed
submit with a nonempty RPC error is surfaced verbatim and the store is left
unchanged. -/
theorem sendFaucetTransaction_submit_outcome_witness :
    (sendFaucetTransaction "octReceiver2" "tok" ⟨[], []⟩ 7
        (TransactionResult.mk false none (some "rpc rejected"))).1.error
      = some "rpc rejected"
    ∧ (sendFaucetTransaction "octReceiver2" "tok" ⟨[], []⟩ 7
        (TransactionResult.mk false none (some "rpc rejected"))).2 = ⟨[], []⟩ := by
  have h := (sendFaucetTransaction_submit_outcome "octReceiver2" "tok" ⟨[], []⟩ 7
      ⟨false, none, some "rpc rejected"⟩ (by decide) rfl).1 rfl
  exact ⟨h.2.2.1 "rpc rejected" rfl (by decide), h.2.1⟩

/-- C2 (counterexample to the claim as stated): when the RPC submit fails
with the (reachable) empty-string error — an empty non-200 response body —
the orchestrator does not carry the RPC error: it substitutes
`Transaction failed`. -/
theorem sendFaucetTransaction_empty_error_cex :
    (TransactionResult.mk false none (some "")).error = some ""
    ∧ sendFaucetTransaction "octReceiver1" "token" ⟨[], []⟩ 1000
        (TransactionResult.mk false none (some ""))
        = ({ success := false, txHash := none, error := some "Transaction failed" },
           ⟨[], []⟩)
    ∧ (some "Transaction failed" : Option String) ≠ some "" := by
  exact ⟨rfl, rfl, by simp⟩

/-- C4 (amended): `sendTransaction`'s response handling equals the
priority-ordered parse strategy of `submitParseSpec`: every HTTP 200
response is a success; a JSON body with `status: "accepted"` yields its
`tx_hash`; the `OK <64-hex>` regex stage is consulted only when reading the
status from the body faults (non-JSON body, or a body parsing to `null`) —
not, as the claim states, whenever the accepted-JSON shape fails — and
otherwise the raw body is the hash.  A 2xx status other than 200 yields
`success = false` with the raw body as the error detail; a non-2xx status
is rejected by axios's default `validateStatus` before the source's status
check, so — contrary to the claim's non-200 clause — the catch block yields
`success = false` with the axios error message, never the raw body, as the
error detail (a network failure likewise surfaces its error message). -/
theorem parseSendTxResponse_matches_spec (out : HttpOutcome) :
    parseSendTxResponse out = submitParseSpec out := by
  cases out with
  | networkError msg => rfl
  | response status text =>
    by_cases hs : status = 200
    · subst hs
      have h2 : 200 ≤ 200 ∧ 200 < 300 := by norm_num
      simp only [parseSendTxResponse, submitParseSpec, readStatusField, txHashField,
        if_pos h2, if_pos rfl]
      cases h : jsonParse text with
      | none => cases hm : hashMatch text <;> simp [h, hm]
      | some d =>
        cases hp : jsProp d "status" with
        | error e => cases hm : hashMatch text <;> simp [h, hp, hm]
        | ok st =>
          by_cases ha : isAcceptedVal st = true
          · simp [h, hp, ha]
          · simp [h, hp, Bool.of_not_eq_true ha]
    · by_cases h2 : 200 ≤ status ∧ status < 300
      · simp [parseSendTxResponse, submitParseSpec, hs, h2]
      · simp [parseSendTxResponse, submitParseSpec, hs, h2]

/-- C4 (counterexample to the claim as stated), in two parts.  Parse
priority: an HTTP 200 body that parses as JSON without
`status: "accepted"` and that matches the `OK <64-hex>` pattern — the
claim's priority order demands the 64-hex capture as the hash, but the
implementation never consults the regex after a successful `JSON.parse`
and returns the raw body.  Non-200 handling: a 500 response never reaches
the source's raw-body failure return, because axios rejects it; the error
detail is the axios message, not the raw body the claim demands. -/
theorem parseSendTxResponse_cex :
    jsonParse submitPriorityCexBody
        = some (Json.obj [("status", Json.str "rejected"),
                          ("detail", Json.str ("OK " ++ hex64Sample))])
    ∧ isAcceptedVal (lookupLast [("status", Json.str "rejected"),
        ("detail", Json.str ("OK " ++ hex64Sample))] "status") = false
    ∧ hashMatch submitPriorityCexBody = some hex64Sample
    ∧ parseSendTxResponse (HttpOutcome.response 200 submitPriorityCexBody)
        = { success := true, hash := some (Json.str submitPriorityCexBody), error := none }
    ∧ submitPriorityCexBody ≠ hex64Sample
    ∧ parseSendTxResponse (HttpOutcome.response 500 "insufficient balance")
        = { success := false, hash := none,
            error := some "Request failed with status code 500" }
    ∧ ("Request failed with status code 500" : String) ≠ "insufficient balance" := by
  refine ⟨rfl, rfl, rfl, rfl, by decide, rfl, by decide⟩

/-- C9 (amended): `fetchFaucetBalance` and `fetchFaucetNonce` parse the
`balance` (accepting string or number) and `nonce` fields of the
address-info response, defaulting each to 0 when absent; on network error —
and on a `null` response body, whose property access faults — they raise
the distinguishable `Unable to fetch faucet balance` / `Unable to fetch
faucet nonce` errors; but a malformed non-null, non-object response body is
not detected: it falls through to the 0 default instead of raising (the
amendment; see `fetchFaucet_malformed_default_cex`). -/
theorem fetchFaucet_parse :
    fetchFaucetBalance FetchOutcome.failure = Except.error "Unable to fetch faucet balance"
    ∧ fetchFaucetNonce FetchOutcome.failure = Except.error "Unable to fetch faucet nonce"
    ∧ fetchFaucetBalance (FetchOutcome.ok Json.null)
        = Except.error "Unable to fetch faucet balance"
    ∧ fetchFaucetNonce (FetchOutcome.ok Json.null)
        = Except.error "Unable to fetch faucet nonce"
    ∧ (∀ kvs, lookupLast kvs "balance" = none →
        fetchFaucetBalance (FetchOutcome.ok (Json.obj kvs)) = Except.ok (Json.num 0))
    ∧ (∀ kvs, lookupLast kvs "nonce" = none →
        fetchFaucetNonce (FetchOutcome.ok (Json.obj kvs)) = Except.ok (Json.num 0))
    ∧ (∀ kvs s, lookupLast kvs "balance" = some (Json.str s) →
        fetchFaucetBalance (FetchOutcome.ok (Json.obj kvs)) = Except.ok (jsParseFloat s))
    ∧ (∀ kvs q, lookupLast kvs "balance" = some (Json.num q) → q ≠ 0 →
        fetchFaucetBalance (FetchOutcome.ok (Json.obj kvs)) = Except.ok (Json.num q))
    ∧ (∀ kvs q, lookupLast kvs "nonce" = some (Json.num q) → q ≠ 0 →
        fetchFaucetNonce (FetchOutcome.ok (Json.obj kvs)) = Except.ok (Json.num q))
    ∧ (∀ s, fetchFaucetBalance (FetchOutcome.ok (Json.str s)) = Except.ok (Json.num 0)
        ∧ fetchFaucetNonce (FetchOutcome.ok (Json.str s)) = Except.ok (Json.num 0)) := by
  refine ⟨rfl, rfl, rfl, rfl, ?_, ?_, ?_, ?_, ?_, ?_⟩
  · intro kvs h
    simp [fetchFaucetBalance, jsProp, h, jsOrElse]
  · intro kvs h
    simp [fetchFaucetNonce, jsProp, h, jsOrElse]
  · intro kvs s h
    simp [fetchFaucetBalance, jsProp, h]
  · intro kvs q h hq
    simp [fetchFaucetBalance, jsProp, h, jsOrElse, jsTruthy, hq]
  · intro kvs q h hq
    simp [fetchFaucetNonce, jsProp, h, jsOrElse, jsTruthy, hq]
  · intro s
    exact ⟨rfl, rfl⟩

/-- Closed instantiation of `fetchFaucet_parse`: an object body with no
`balance` field yields the 0 default. -/
theorem fetchFaucet_parse_witness :
    fetchFaucetBalance (FetchOutcome.ok (Json.obj [])) = Except.ok (Json.num 0) :=
  fetchFaucet_parse.2.2.2.2.1 [] rfl

/-- C9 (counterexample to the claim as stated): a malformed (non-object)
response body — here a plain string, as axios yields for a non-JSON body —
makes both fetchers return the default 0 instead of raising the
distinguishable unavailable error. -/
theorem fetchFaucet_malformed_default_cex :
    fetchFaucetBalance (FetchOutcome.ok (Json.str "<html>bad gateway</html>"))
        = Except.ok (Json.num 0)
    ∧ fetchFaucetNonce (FetchOutcome.ok (Json.str "<html>bad gateway</html>"))
        = Except.ok (Json.num 0)
    ∧ (Except.ok (Json.num 0) : Except String Json)
        ≠ Except.error "Unable to fetch faucet balance" := by
  exact ⟨rfl, rfl, by simp⟩
